import Mathlib

/-!
Shallow embedding of `src/golf.py`, a voice-controlled golf-swing instant-replay
application built around a capture/replay loop.

Modelling conventions:

* The shared latches of `shared_state` (lines 61-68) become the `Shared` record;
  the replay speed factor is modelled over `ℚ` (the float constant 1.25 is the
  exact rational 5/4).
* The voice-listener thread's effect on the shared state per recognized command
  (lines 135-159) is the pure function `applyCmd`; an utterance is mapped to at
  most one command by `voice_dispatch`, embedding the normalization and the
  if/elif matching chain of `voice_listener` (lines 133-158).
* Concurrency is modelled by an environment: a list of `Tick`s consumed one per
  blocking point (each main-loop iteration, each capture-loop iteration, each
  replay step).  A tick carries the commands the listener latched since the
  previous observation point, whether the frame read at that point succeeded,
  whether the capture deadline has passed, and whether the quit key was pressed
  at that point's `waitKey`.  When the environment list is exhausted the quiet
  tick (no commands, successful reads, deadline passed, no key) is used.
* Frames are identified by the ordinal of the successful `cap.read()` that
  produced them.  Observable behaviour is a list of events `Ev`: a frame
  appended to the capture buffer, a replay frame presented, the listening-phase
  frame displayed at the end of a main-loop iteration, and the entry
  announcements of the capture phase (print at line 284) and of the replay
  phase (print at line 186).
* `run_replay` embeds the function of the same name (lines 184-219),
  `capture_loop` the inner capture loop of `main` (lines 285-308), `main_iter`
  one iteration of the main loop (lines 266-362) and `main_loop` the loop
  itself, with explicit fuel bounding the number of iterations observed.
-/

namespace Golf

/-- The closed set of command kinds produced by the voice listener
(`src/golf.py` lines 46-52). -/
inductive Cmd where
  | start_record
  | repeat_replay
  | exit_app
  | toggle_info
  | speed_down
  | speed_up
  deriving DecidableEq, Repr

/-- The cross-thread shared state (`shared_state`, lines 61-68): four boolean
event latches plus the replay speed factor (initially 2.0 = half speed). -/
structure Shared where
  start_record : Bool
  repeat_replay : Bool
  exit_app : Bool
  toggle_info : Bool
  speed : ℚ
  deriving DecidableEq, Repr

/-- The initial shared state: all latches down, speed factor 2.0 (line 66). -/
def shared0 : Shared := ⟨false, false, false, false, 2⟩

/-- Effect of one recognized command on the shared state, as performed by the
voice-listener thread (lines 135-159): the four event kinds set their latch;
SPEED_DOWN multiplies the speed factor by 1.25 (line 152) and SPEED_UP divides
it by 1.25 (line 157). -/
def applyCmd (sh : Shared) : Cmd → Shared
  | .exit_app => { sh with exit_app := true }
  | .start_record => { sh with start_record := true }
  | .repeat_replay => { sh with repeat_replay := true }
  | .toggle_info => { sh with toggle_info := true }
  | .speed_down => { sh with speed := sh.speed * (5 / 4) }
  | .speed_up => { sh with speed := sh.speed / (5 / 4) }

/-- Effect of a sequence of recognized commands, applied in order. -/
def applyCmds (sh : Shared) (cs : List Cmd) : Shared := cs.foldl applyCmd sh

/-- One observation point of the environment: the commands the listener thread
latched since the previous point, whether the frame read there succeeded
(`ret`), whether the capture deadline `time.time() - start_time <
REPLAY_DURATION_SECONDS` has elapsed, and whether `waitKey` reported the quit
key `q`. -/
structure Tick where
  cmds : List Cmd
  ret : Bool
  deadline : Bool
  q : Bool
  deriving DecidableEq, Repr

/-- The quiet tick used once the scripted environment is exhausted: no
commands, reads succeed, the capture deadline has passed, no key pressed. -/
def quietTick : Tick := ⟨[], true, true, false⟩

/-- Pop the next tick from the environment, defaulting to `quietTick`. -/
def nextTick : List Tick → Tick × List Tick
  | [] => (quietTick, [])
  | t :: r => (t, r)

/-- Observable events of a run.  `frame_captured n` is an append to the
current capture buffer (line 293), `replay_frame n` a frame presented by
`run_replay` (line 211), `listen_frame n` the listening-phase display at the
end of a main-loop iteration (line 359), `capture_started` the entry into the
capture phase (line 284) and `replay_started` the entry into `run_replay`
(line 186). -/
inductive Ev where
  | frame_captured (n : Nat)
  | replay_frame (n : Nat)
  | listen_frame (n : Nat)
  | capture_started
  | replay_started
  deriving DecidableEq, Repr

/-- Result of `run_replay`: final shared state, remaining environment, events
emitted, and the Python return value (`True` at line 219 after the loop ends —
whether it ran out of frames or `break` fired at line 192 — and `False` at
line 218 when the quit key is seen). -/
structure ReplayRes where
  sh : Shared
  env : List Tick
  evs : List Ev
  retval : Bool
  deriving DecidableEq, Repr

/-- The per-frame loop of `run_replay` (lines 189-219).  At the top of every
step the tick's commands are latched (the listener runs concurrently), then
the cancellation condition `start_record or exit_app` is tested (line 190) and
on success the loop breaks, reaching `return True`.  Otherwise the frame is
presented (line 211); if the quit key is seen at the step's `waitKey`
(line 216) the exit latch is set and `False` is returned immediately. -/
def replay_steps (sh : Shared) (frames : List Nat) (env : List Tick) : ReplayRes :=
  match frames with
  | [] => ⟨sh, env, [], true⟩
  | f :: rest =>
    let p := nextTick env
    let sh1 := applyCmds sh p.1.cmds
    if sh1.start_record || sh1.exit_app then
      ⟨sh1, p.2, [], true⟩
    else if p.1.q then
      ⟨{ sh1 with exit_app := true }, p.2, [Ev.replay_frame f], false⟩
    else
      let r := replay_steps sh1 rest p.2
      ⟨r.sh, r.env, Ev.replay_frame f :: r.evs, r.retval⟩

/-- `run_replay` (lines 184-219): announces the replay phase (line 186),
unconditionally clears the START_RECORD latch (line 187), then runs the
per-frame loop over the buffer. -/
def run_replay (sh : Shared) (frames : List Nat) (env : List Tick) : ReplayRes :=
  let r := replay_steps { sh with start_record := false } frames env
  { r with evs := Ev.replay_started :: r.evs }

/-- Result of the capture phase: final shared state, next frame ordinal,
remaining environment, the capture buffer built, and the events emitted. -/
structure CapRes where
  sh : Shared
  next : Nat
  env : List Tick
  buf : List Nat
  evs : List Ev
  deriving DecidableEq, Repr

/-- The inner capture loop of `main` (lines 287-308).  The `while` condition
tests only the elapsed time against `REPLAY_DURATION_SECONDS` (line 287) — the
exit latch is not consulted.  Each iteration reads a frame (line 288; a failed
read breaks the loop at line 289), appends it to the buffer (line 293), and
ends with a `waitKey` where the quit key sets the exit latch and breaks
(lines 306-308). -/
def capture_loop (sh : Shared) (next : Nat) (env : List Tick) : CapRes :=
  match env with
  | [] => ⟨sh, next, [], [], []⟩
  | t :: env' =>
    let sh1 := applyCmds sh t.cmds
    if t.deadline then ⟨sh1, next, env', [], []⟩
    else if !t.ret then ⟨sh1, next, env', [], []⟩
    else if t.q then
      ⟨{ sh1 with exit_app := true }, next + 1, env', [next], [Ev.frame_captured next]⟩
    else
      let r := capture_loop sh1 (next + 1) env'
      ⟨r.sh, r.next, r.env, next :: r.buf, Ev.frame_captured next :: r.evs⟩

/-- The controller-local state of `main` (lines 262-264 and the frame-read
counter): shared state, `last_capture_buffer`, `swing_count`, `show_info`, and
the ordinal of the next successful frame read. -/
structure MState where
  shared : Shared
  last_buf : Option (List Nat)
  swing_count : Nat
  show_info : Bool
  next_frame : Nat
  deriving DecidableEq, Repr

/-- The initial controller state. -/
def mstate0 : MState := ⟨shared0, none, 0, false, 0⟩

/-- Result of one main-loop iteration: new controller state, remaining
environment, events emitted, and whether the loop continues (`false` when the
listening-phase frame read failed and the loop `break`s at line 270). -/
structure IterRes where
  st : MState
  env : List Tick
  evs : List Ev
  cont : Bool
  deriving DecidableEq, Repr

/-- The tail common to every non-breaking main-loop iteration (lines 326-362):
the frame read at the top of the iteration is displayed with the listening
overlay, and the iteration's `waitKey` (line 361) may set the exit latch. -/
def finish_iter (fid nf swing : Nat) (info : Bool) (last : Option (List Nat))
    (t : Tick) (env : List Tick) (evs : List Ev) (sh : Shared) : IterRes :=
  let sh' := if t.q then { sh with exit_app := true } else sh
  ⟨⟨sh', last, swing, info, nf⟩, env, evs ++ [Ev.listen_frame fid], true⟩

/-- One iteration of the main loop of `main` (lines 266-362).  The tick's
commands are latched first (the listener runs concurrently), the listening
frame is read (a failure breaks the loop, lines 268-270), TOGGLE_INFO is
consumed (lines 276-278); then, if START_RECORD is latched, the swing counter
is incremented (line 282) and the capture phase runs, a non-empty buffer is
promoted to `last_capture_buffer` and replayed (lines 310-312), and the
START_RECORD latch is cleared (line 315); otherwise, if REPEAT_REPLAY is
latched, the last buffer — when one exists — is replayed and the
REPEAT_REPLAY latch is cleared (lines 317-323).  Every non-breaking iteration
ends by displaying the listening frame read at its top. -/
def main_iter (st : MState) (t : Tick) (env : List Tick) : IterRes :=
  let sh1 := applyCmds st.shared t.cmds
  if !t.ret then
    ⟨{ st with shared := sh1 }, env, [], false⟩
  else
    let fid := st.next_frame
    let nf := st.next_frame + 1
    let info := if sh1.toggle_info then !st.show_info else st.show_info
    let sh2 := if sh1.toggle_info then { sh1 with toggle_info := false } else sh1
    if sh2.start_record then
      let swing := st.swing_count + 1
      let c := capture_loop sh2 nf env
      if c.buf = [] then
        finish_iter fid c.next swing info st.last_buf t c.env
          (Ev.capture_started :: c.evs) { c.sh with start_record := false }
      else
        let r := run_replay c.sh c.buf c.env
        finish_iter fid c.next swing info (some c.buf) t r.env
          (Ev.capture_started :: c.evs ++ r.evs) { r.sh with start_record := false }
    else if sh2.repeat_replay then
      match st.last_buf with
      | some buf =>
        let r := run_replay sh2 buf env
        finish_iter fid nf st.swing_count info st.last_buf t r.env r.evs
          { r.sh with repeat_replay := false }
      | none =>
        finish_iter fid nf st.swing_count info st.last_buf t env []
          { sh2 with repeat_replay := false }
    else
      finish_iter fid nf st.swing_count info st.last_buf t env [] sh2

/-- The main loop of `main` (line 266): while the exit latch is down, run one
iteration.  `fuel` bounds the number of iterations observed. -/
def main_loop (st : MState) (env : List Tick) : Nat → MState × List Ev
  | 0 => (st, [])
  | fuel + 1 =>
    if st.shared.exit_app then (st, [])
    else
      let p := nextTick env
      let r := main_iter st p.1 p.2
      if r.cont then
        let rest := main_loop r.st r.env fuel
        (rest.1, r.evs ++ rest.2)
      else (r.st, r.evs)

/-- Python `str.lower` restricted to the character repertoire of this
application: ASCII letters plus the Spanish accented letters. -/
def pyLower (c : Char) : Char :=
  if c = 'Á' then 'á' else if c = 'É' then 'é' else if c = 'Í' then 'í'
  else if c = 'Ó' then 'ó' else if c = 'Ú' then 'ú' else if c = 'Ñ' then 'ñ'
  else if c = 'Ü' then 'ü' else c.toLower

/-- The accent folding of the command-matching normalization (line 133):
only 'á' and 'ú' are replaced. -/
def fold_accents (c : Char) : Char :=
  if c = 'á' then 'a' else if c = 'ú' then 'u' else c

/-- The normalization applied before command matching (line 133):
`text.lower().replace` of 'á' by 'a' and of 'ú' by 'u'. -/
def normalize_text (t : List Char) : List Char :=
  (t.map pyLower).map fold_accents

/-- Trigger vocabulary (lines 47-52). -/
def TRIGGER_WORD : List Char := "okay".data

/-- Repeat trigger (line 48). -/
def REPEAT_TRIGGER_WORD : List Char := "otra".data

/-- Exit trigger (line 49). -/
def EXIT_WORD : List Char := "salir".data

/-- Speed-up trigger (line 50). -/
def SPEED_UP_WORD : List Char := "rapido".data

/-- Speed-down trigger (line 51). -/
def SPEED_DOWN_WORD : List Char := "lento".data

/-- Info-toggle trigger (line 52). -/
def INFO_TOGGLE_WORD : List Char := "menu".data

/-- Whether the first list is an initial segment of the second. -/
def leadsList (pat s : List Char) : Bool :=
  match pat, s with
  | [], _ => true
  | _ :: _, [] => false
  | p :: ps, c :: cs => p = c && leadsList ps cs

/-- Python's substring operator `in`: whether `pat` occurs contiguously in
`s`. -/
def occursIn (pat : List Char) : List Char → Bool
  | [] => pat.isEmpty
  | c :: cs => leadsList pat (c :: cs) || occursIn pat cs

/-- The per-utterance dispatch of `voice_listener` (lines 133-158): normalize
the recognized text, then test each trigger word for substring membership in
the order of the if/elif chain — EXIT, START_RECORD, REPEAT_REPLAY,
TOGGLE_INFO, SPEED_DOWN, SPEED_UP — the first match winning. -/
def voice_dispatch (raw : List Char) : Option Cmd :=
  let t := normalize_text raw
  if occursIn EXIT_WORD t then some .exit_app
  else if occursIn TRIGGER_WORD t then some .start_record
  else if occursIn REPEAT_TRIGGER_WORD t then some .repeat_replay
  else if occursIn INFO_TOGGLE_WORD t then some .toggle_info
  else if occursIn SPEED_DOWN_WORD t then some .speed_down
  else if occursIn SPEED_UP_WORD t then some .speed_up
  else none

/-- The camera index (line 43). -/
def CAMERA_INDEX : Nat := 0

/-- Outcome of startup: the process exit status, the diagnostic printed on a
device-open failure, and whether the session actually started. -/
structure StartOutcome where
  exitCode : Nat
  diagnostic : Option (List Char)
  started : Bool
  deriving DecidableEq, Repr

/-- The camera-open check at startup (lines 228-231): when `cap.isOpened()` is
false, `main` prints the diagnostic naming the camera index and executes a
plain `return`, so the interpreter exits normally with status 0. -/
def startup (cameraOpened : Bool) : StartOutcome :=
  if cameraOpened then ⟨0, none, true⟩
  else ⟨0, some ("Error: Could not open camera at index 0.".data), false⟩

/-- A controller state in which the START_RECORD latch is up and the other
latches are down, about to be observed by a main-loop iteration. -/
def armedState (v : ℚ) (last : Option (List Nat)) (swing : Nat) (info : Bool)
    (fid : Nat) : MState :=
  ⟨⟨true, false, false, false, v⟩, last, swing, info, fid⟩

/-- A controller state in which the REPEAT_REPLAY latch is up, the other
latches are down, and a last buffer exists. -/
def repeatState (v : ℚ) (buf : List Nat) (swing : Nat) (info : Bool)
    (fid : Nat) : MState :=
  ⟨⟨false, true, false, false, v⟩, some buf, swing, info, fid⟩

/-! ### Helper lemmas -/

theorem applyCmds_nil (sh : Shared) : applyCmds sh [] = sh := rfl

theorem applyCmd_exit_mono (sh : Shared) (c : Cmd) (h : sh.exit_app = true) :
    (applyCmd sh c).exit_app = true := by
  cases c <;> simp [applyCmd, h]

theorem applyCmds_exit_mono (cs : List Cmd) (sh : Shared) (h : sh.exit_app = true) :
    (applyCmds sh cs).exit_app = true := by
  induction cs generalizing sh with
  | nil => exact h
  | cons c cs ih => exact ih _ (applyCmd_exit_mono sh c h)

theorem applyCmd_start_mono (sh : Shared) (c : Cmd) (h : sh.start_record = true) :
    (applyCmd sh c).start_record = true := by
  cases c <;> simp [applyCmd, h]

theorem applyCmds_start_mono (cs : List Cmd) (sh : Shared) (h : sh.start_record = true) :
    (applyCmds sh cs).start_record = true := by
  induction cs generalizing sh with
  | nil => exact h
  | cons c cs ih => exact ih _ (applyCmd_start_mono sh c h)

theorem applyCmds_start_of_mem (cs : List Cmd) (sh : Shared)
    (h : Cmd.start_record ∈ cs) : (applyCmds sh cs).start_record = true := by
  induction cs generalizing sh with
  | nil => cases h
  | cons c cs ih =>
    rcases List.mem_cons.mp h with h1 | h2
    · subst h1
      exact applyCmds_start_mono cs _ (by simp [applyCmd])
    · exact ih _ h2

theorem capture_loop_evs (env : List Tick) (sh : Shared) (n : Nat) :
    (capture_loop sh n env).evs = (capture_loop sh n env).buf.map Ev.frame_captured := by
  induction env generalizing sh n with
  | nil => rfl
  | cons t env' ih =>
    simp only [capture_loop]
    split
    · rfl
    · split
      · rfl
      · split
        · rfl
        · simp [ih]

theorem replay_steps_quiet (frames : List Nat) (sh : Shared)
    (h1 : sh.start_record = false) (h2 : sh.exit_app = false) :
    replay_steps sh frames [] = ⟨sh, [], frames.map Ev.replay_frame, true⟩ := by
  induction frames with
  | nil => rfl
  | cons f rest ih =>
    simp [replay_steps, nextTick, quietTick, applyCmds, h1, h2, ih]

theorem replay_steps_env_nil_retval (frames : List Nat) (sh : Shared) :
    (replay_steps sh frames []).retval = true := by
  induction frames generalizing sh with
  | nil => rfl
  | cons f rest ih =>
    simp only [replay_steps, nextTick, quietTick, applyCmds, List.foldl]
    split
    · rfl
    · simpa using ih _

/-! ### Claim C4: command normalization and dispatch priority -/

/-- C4 (counterexample).  The matching normalization (line 133) folds only 'á'
and 'ú', so the utterance "lénto" — the trigger phrase "lento" carrying the
Spanish diacritic 'é' — fires no command at all, while plain "lento" fires
SPEED_DOWN.  This refutes the claim that an utterance containing an accented
variant of a trigger phrase with any Spanish diacritic still fires that
command. -/
theorem accented_trigger_not_matched :
    voice_dispatch "lénto".data = none ∧
    voice_dispatch "lento".data = some Cmd.speed_down := by
  exact ⟨rfl, rfl⟩

/-- C4 (amended).  Command dispatch lower-cases the utterance and folds the
diacritics 'á' and 'ú' (only those two), then tests each trigger phrase for
substring membership in the fixed priority order EXIT, START_RECORD,
REPEAT_REPLAY, TOGGLE_INFO, SPEED_DOWN, SPEED_UP; the first match wins, so
every utterance produces at most one command, and utterances carrying the
accented variants that actually occur in the configured vocabulary — "rápido"
and "menú" — still fire their commands. -/
theorem voice_dispatch_priority (raw : List Char) :
    (occursIn EXIT_WORD (normalize_text raw) = true →
      voice_dispatch raw = some Cmd.exit_app) ∧
    (occursIn EXIT_WORD (normalize_text raw) = false →
      occursIn TRIGGER_WORD (normalize_text raw) = true →
      voice_dispatch raw = some Cmd.start_record) ∧
    (occursIn EXIT_WORD (normalize_text raw) = false →
      occursIn TRIGGER_WORD (normalize_text raw) = false →
      occursIn REPEAT_TRIGGER_WORD (normalize_text raw) = true →
      voice_dispatch raw = some Cmd.repeat_replay) ∧
    (occursIn EXIT_WORD (normalize_text raw) = false →
      occursIn TRIGGER_WORD (normalize_text raw) = false →
      occursIn REPEAT_TRIGGER_WORD (normalize_text raw) = false →
      occursIn INFO_TOGGLE_WORD (normalize_text raw) = true →
      voice_dispatch raw = some Cmd.toggle_info) ∧
    (occursIn EXIT_WORD (normalize_text raw) = false →
      occursIn TRIGGER_WORD (normalize_text raw) = false →
      occursIn REPEAT_TRIGGER_WORD (normalize_text raw) = false →
      occursIn INFO_TOGGLE_WORD (normalize_text raw) = false →
      occursIn SPEED_DOWN_WORD (normalize_text raw) = true →
      voice_dispatch raw = some Cmd.speed_down) ∧
    (occursIn EXIT_WORD (normalize_text raw) = false →
      occursIn TRIGGER_WORD (normalize_text raw) = false →
      occursIn REPEAT_TRIGGER_WORD (normalize_text raw) = false →
      occursIn INFO_TOGGLE_WORD (normalize_text raw) = false →
      occursIn SPEED_DOWN_WORD (normalize_text raw) = false →
      occursIn SPEED_UP_WORD (normalize_text raw) = true →
      voice_dispatch raw = some Cmd.speed_up) ∧
    (occursIn EXIT_WORD (normalize_text raw) = false →
      occursIn TRIGGER_WORD (normalize_text raw) = false →
      occursIn REPEAT_TRIGGER_WORD (normalize_text raw) = false →
      occursIn INFO_TOGGLE_WORD (normalize_text raw) = false →
      occursIn SPEED_DOWN_WORD (normalize_text raw) = false →
      occursIn SPEED_UP_WORD (normalize_text raw) = false →
      voice_dispatch raw = none) ∧
    voice_dispatch "rápido".data = some Cmd.speed_up ∧
    voice_dispatch "menú".data = some Cmd.toggle_info ∧
    voice_dispatch "MENÚ rápido salir".data = some Cmd.exit_app := by
  refine ⟨?_, ?_, ?_, ?_, ?_, ?_, ?_, rfl, rfl, rfl⟩ <;>
    · intros
      simp_all [voice_dispatch]

/-- C4 (witness): the EXIT branch of `voice_dispatch_priority` at the concrete
utterance "quiero salir". -/
theorem voice_dispatch_priority_witness :
    voice_dispatch "quiero salir".data = some Cmd.exit_app :=
  (voice_dispatch_priority ("quiero salir".data)).1 (by decide)

/-! ### Claim C5: camera-open failure at startup -/

/-- C5 (counterexample).  When the capture device cannot be opened, `main`
prints the diagnostic and executes a plain `return` (lines 229-231), so the
process terminates with exit status 0 — not a non-zero status as claimed. -/
theorem camera_open_failure_exit_code_zero :
    (startup false).started = false ∧ (startup false).exitCode = 0 := by
  exact ⟨rfl, rfl⟩

/-- C5 (amended).  If the capture device cannot be opened at startup, the
program terminates immediately (the session never starts) and emits a
diagnostic identifying which device failed to open, but its exit status is 0
(a plain return from `main`), not non-zero. -/
theorem camera_open_failure_diagnostic :
    (startup false).started = false ∧
    (startup false).exitCode = 0 ∧
    (startup false).diagnostic = some ("Error: Could not open camera at index 0.".data) ∧
    occursIn ("camera at index 0".data) ("Error: Could not open camera at index 0.".data)
      = true := by
  refine ⟨rfl, rfl, rfl, by decide⟩

/-! ### Claim C7: latch semantics of repeated commands -/

/-- C7 (counterexample).  SPEED_UP is not a latched signal: two SPEED_UP
occurrences before consumption divide the speed factor twice (2 → 32/25),
while a single occurrence divides it once (2 → 8/5), so the
controller-observable effect of two occurrences differs from that of one. -/
theorem speed_command_not_latched :
    applyCmds shared0 [Cmd.speed_up, Cmd.speed_up] ≠
      applyCmds shared0 [Cmd.speed_up] := by
  intro h
  have h2 := congrArg Shared.speed h
  simp only [applyCmds, applyCmd, shared0, List.foldl] at h2
  norm_num at h2

/-- C7 (amended).  The four boolean command kinds (START_RECORD,
REPEAT_REPLAY, EXIT, TOGGLE_INFO) are latched: repeated occurrences before
consumption collapse to a single pending occurrence.  SPEED_UP and SPEED_DOWN
are not latched: each occurrence multiplies (respectively divides) the speed
factor by the step 1.25, so N occurrences apply the step N times. -/
theorem latch_collapse_boolean_kinds (sh : Shared) :
    applyCmd (applyCmd sh Cmd.start_record) Cmd.start_record =
      applyCmd sh Cmd.start_record ∧
    applyCmd (applyCmd sh Cmd.repeat_replay) Cmd.repeat_replay =
      applyCmd sh Cmd.repeat_replay ∧
    applyCmd (applyCmd sh Cmd.exit_app) Cmd.exit_app = applyCmd sh Cmd.exit_app ∧
    applyCmd (applyCmd sh Cmd.toggle_info) Cmd.toggle_info =
      applyCmd sh Cmd.toggle_info ∧
    (applyCmds sh [Cmd.speed_up, Cmd.speed_up]).speed = sh.speed / (5 / 4) / (5 / 4) ∧
    (applyCmds sh [Cmd.speed_down, Cmd.speed_down]).speed =
      sh.speed * (5 / 4) * (5 / 4) := by
  refine ⟨rfl, rfl, rfl, rfl, rfl, rfl⟩

/-! ### Claim C8: SPEED_UP and SPEED_DOWN are mutually inverse -/

/-- C8.  For every positive speed factor, applying SPEED_UP then SPEED_DOWN
(or vice versa) with the fixed step 1.25 returns the factor to its original
value, exactly over the rationals. -/
theorem speed_up_down_inverse (sh : Shared) (_hpos : 0 < sh.speed) :
    (applyCmd (applyCmd sh Cmd.speed_up) Cmd.speed_down).speed = sh.speed ∧
    (applyCmd (applyCmd sh Cmd.speed_down) Cmd.speed_up).speed = sh.speed := by
  constructor <;>
    · simp only [applyCmd]
      field_simp

/-- C8 (witness): the inverse law at the initial speed factor 2. -/
theorem speed_up_down_inverse_witness :
    0 < shared0.speed ∧
    (applyCmd (applyCmd shared0 Cmd.speed_up) Cmd.speed_down).speed = shared0.speed :=
  ⟨by norm_num [shared0], (speed_up_down_inverse shared0 (by norm_num [shared0])).1⟩

/-! ### Claim C2: replay cancellation and its result -/

/-- C2 (counterexample).  A START_RECORD latched during a replay makes
`run_replay` stop before presenting any remaining frame, but its return value
is `True` (line 219) — exactly the value returned when the buffer is replayed
to its natural end — so the caller cannot distinguish the two outcomes. -/
theorem replay_cancel_result_equals_completed :
    (run_replay shared0 [5, 6] [⟨[Cmd.start_record], true, false, false⟩]).retval =
      (run_replay shared0 [5, 6] []).retval ∧
    (run_replay shared0 [5, 6] [⟨[Cmd.start_record], true, false, false⟩]).evs =
      [Ev.replay_started] ∧
    (run_replay shared0 [5, 6] []).evs =
      [Ev.replay_started, Ev.replay_frame 5, Ev.replay_frame 6] := by
  exact ⟨rfl, rfl, rfl⟩

/-- C2 (amended).  `run_replay` checks its cancellation condition (START_RECORD
or EXIT latch) at the top of every per-frame step and, when it holds, stops
immediately without presenting further frames; but the value it then returns is
`True`, identical to the value returned on natural completion (only the
quit-key path returns `False`), so cancellation by START_RECORD is not
distinguishable by the caller from completion. -/
theorem replay_cancel_checked_but_result_indistinct :
    (∀ (sh : Shared) (f : Nat) (rest : List Nat) (t : Tick) (env : List Tick),
      Cmd.start_record ∈ t.cmds →
        (run_replay sh (f :: rest) (t :: env)).evs = [Ev.replay_started] ∧
        (run_replay sh (f :: rest) (t :: env)).retval = true) ∧
    (∀ (sh : Shared) (frames : List Nat),
      (replay_steps sh frames []).retval = true) := by
  constructor
  · intro sh f rest t env hmem
    have hs := applyCmds_start_of_mem t.cmds { sh with start_record := false } hmem
    simp [run_replay, replay_steps, nextTick, hs]
  · intro sh frames
    exact replay_steps_env_nil_retval frames sh

/-- C2 (witness): cancellation of a one-frame replay by a START_RECORD in the
first step returns `true`, the completion value. -/
theorem replay_cancel_checked_witness :
    (run_replay shared0 [9] [⟨[Cmd.start_record], true, false, false⟩]).retval = true :=
  (replay_cancel_checked_but_result_indistinct.1 shared0 9 []
    ⟨[Cmd.start_record], true, false, false⟩ [] (by decide)).2

/-! ### Claim C6: frame-read failure handling -/

/-- C6 (counterexample).  A single failed frame read is not swallowed: in the
listening loop it breaks the main loop at once (lines 268-270) — here, with a
successful read available at the very next tick, no event is ever produced —
and in the capture loop it ends the capture phase at once (lines 288-289),
leaving the buffer empty although the next read would have succeeded. -/
theorem single_read_failure_ends_session :
    (main_loop mstate0 [⟨[], false, false, false⟩, ⟨[], true, false, false⟩] 5).2 = [] ∧
    (capture_loop ⟨true, false, false, false, 2⟩ 1
      [⟨[], false, false, false⟩, ⟨[], true, false, false⟩]).buf = [] := by
  exact ⟨rfl, rfl⟩

/-- C6 (amended).  A single frame-read failure is treated as end-of-stream
immediately: in the listening phase it breaks the main loop (ending the
session), and in the capture phase it ends the capture loop (the partial
buffer is then handled normally).  There is no distinction between a single
and a sustained failure. -/
theorem read_failure_breaks_loops :
    (∀ (st : MState) (t : Tick) (env : List Tick), t.ret = false →
      main_iter st t env =
        ⟨{ st with shared := applyCmds st.shared t.cmds }, env, [], false⟩) ∧
    (∀ (sh : Shared) (n : Nat) (t : Tick) (env' : List Tick),
      t.deadline = false → t.ret = false →
      capture_loop sh n (t :: env') = ⟨applyCmds sh t.cmds, n, env', [], []⟩) := by
  constructor
  · intro st t env hr
    simp [main_iter, hr]
  · intro sh n t env' hd hr
    simp [capture_loop, hd, hr]

/-- C6 (witness): one failed read in the listening phase breaks the loop with
no event emitted. -/
theorem read_failure_breaks_loops_witness :
    main_iter mstate0 ⟨[], false, false, false⟩ [] = ⟨mstate0, [], [], false⟩ :=
  read_failure_breaks_loops.1 mstate0 ⟨[], false, false, false⟩ [] rfl

/-! ### Claim C9: run_replay clears the START_RECORD latch on entry -/

/-- C9.  `run_replay` unconditionally clears the START_RECORD latch as its
first action (line 187), before replaying any frame: its behaviour is
identical whether or not START_RECORD was latched on entry, and with no
further commands or key presses during the replay every buffered frame is
presented, the replay completes, and the latch ends down — so a START_RECORD
latched before the replay begins is discarded and neither interrupts nor
follows that replay. -/
theorem run_replay_discards_entry_start_latch :
    (∀ (sh : Shared) (frames : List Nat) (env : List Tick),
      run_replay sh frames env =
        run_replay { sh with start_record := false } frames env) ∧
    (∀ (sh : Shared) (frames : List Nat), sh.exit_app = false →
      (run_replay sh frames []).evs = Ev.replay_started :: frames.map Ev.replay_frame ∧
      (run_replay sh frames []).retval = true ∧
      (run_replay sh frames []).sh.start_record = false) := by
  constructor
  · intro sh frames env
    rfl
  · intro sh frames hx
    have hq := replay_steps_quiet frames { sh with start_record := false } rfl hx
    simp [run_replay, hq]

/-- C9 (witness): a replay entered with the START_RECORD latch up and a quiet
environment presents both buffered frames. -/
theorem run_replay_discards_entry_start_latch_witness :
    (run_replay ⟨true, false, false, false, 2⟩ [3, 4] []).evs =
      Ev.replay_started :: [3, 4].map Ev.replay_frame :=
  (run_replay_discards_entry_start_latch.2 ⟨true, false, false, false, 2⟩ [3, 4] rfl).1

/-! ### Claim C1: behaviour after EXIT is observed -/

/-- C1 (counterexample).  With START_RECORD and EXIT both latched before the
first main-loop iteration, the iteration still enters the capture phase and
appends a frame to the capture buffer — the capture loop's `while` condition
(line 287) never consults the exit latch — so a frame is appended to a capture
buffer after EXIT has been observed. -/
theorem capture_appends_after_exit_observed :
    (applyCmds mstate0.shared [Cmd.start_record, Cmd.exit_app]).exit_app = true ∧
    (main_loop mstate0 [⟨[Cmd.start_record, Cmd.exit_app], true, false, false⟩,
        ⟨[], true, false, false⟩] 3).2 =
      [Ev.capture_started, Ev.frame_captured 1, Ev.replay_started, Ev.listen_frame 0] := by
  exact ⟨rfl, rfl⟩

/-- C1 (amended).  Once the EXIT latch is set, the main loop performs no
further iteration (the latch is checked at the loop's top, line 266) and a
replay presents no frame (the latch is checked at the top of every replay
step, line 190, and the Python `True` is returned); but the capture inner loop
does not consult the EXIT latch, so an in-progress capture continues to append
frames until its deadline elapses or a read fails. -/
theorem exit_latch_stops_loop_and_replay :
    (∀ (st : MState) (env : List Tick) (fuel : Nat), st.shared.exit_app = true →
      main_loop st env fuel = (st, [])) ∧
    (∀ (sh : Shared) (frames : List Nat) (env : List Tick), sh.exit_app = true →
      (run_replay sh frames env).evs = [Ev.replay_started] ∧
      (run_replay sh frames env).retval = true) ∧
    (∀ (sh : Shared) (n : Nat) (t : Tick) (env' : List Tick),
      sh.exit_app = true → t.deadline = false → t.ret = true → t.q = false →
      (capture_loop sh n (t :: env')).buf =
        n :: (capture_loop (applyCmds sh t.cmds) (n + 1) env').buf) := by
  refine ⟨?_, ?_, ?_⟩
  · intro st env fuel hx
    cases fuel <;> simp [main_loop, hx]
  · intro sh frames env hx
    have hx' : Shared.exit_app { sh with start_record := false } = true := hx
    cases frames with
    | nil => simp [run_replay, replay_steps]
    | cons f rest =>
      have h2 :=
        applyCmds_exit_mono (nextTick env).1.cmds { sh with start_record := false } hx'
      simp [run_replay, replay_steps, h2]
  · intro sh n t env' _hx hd hr hq
    simp [capture_loop, hd, hr, hq]

/-- C1 (witness): with the EXIT latch up, the main loop stops at once, a
replay of a two-frame buffer presents nothing, and the capture loop still
appends the frame read at a pre-deadline tick. -/
theorem exit_latch_stops_loop_and_replay_witness :
    main_loop ⟨⟨false, false, true, false, 2⟩, none, 0, false, 0⟩ [] 5 =
      (⟨⟨false, false, true, false, 2⟩, none, 0, false, 0⟩, []) ∧
    (run_replay ⟨false, false, true, false, 2⟩ [1, 2] []).evs = [Ev.replay_started] ∧
    (capture_loop ⟨false, false, true, false, 2⟩ 4 [⟨[], true, false, false⟩]).buf =
      4 :: (capture_loop (applyCmds ⟨false, false, true, false, 2⟩ []) 5 []).buf := by
  refine ⟨exit_latch_stops_loop_and_replay.1 _ [] 5 rfl,
    (exit_latch_stops_loop_and_replay.2.1 _ [1, 2] [] rfl).1,
    exit_latch_stops_loop_and_replay.2.2 _ 4 ⟨[], true, false, false⟩ [] rfl rfl rfl rfl⟩

/-! ### Claim C3: end of a capture phase -/

/-- C3 (counterexample).  The swing counter is incremented at line 282, before
the capture phase runs: a capture that collects zero frames (immediate read
failure) still increments the session counter from 0 to 1, although the
controller returns directly to listening without replaying. -/
theorem empty_capture_still_increments_counter :
    mstate0.swing_count = 0 ∧
    (main_loop mstate0 [⟨[Cmd.start_record], true, false, false⟩,
        ⟨[], false, false, false⟩] 1).1.swing_count = 1 ∧
    (main_loop mstate0 [⟨[Cmd.start_record], true, false, false⟩,
        ⟨[], false, false, false⟩] 1).2 = [Ev.capture_started, Ev.listen_frame 0] := by
  exact ⟨rfl, rfl, rfl⟩

/-- C3 (amended).  When a capture phase ends (deadline elapsed or frame source
exhausted): the session swing counter has been incremented by exactly one —
the increment happens at capture start, so it occurs whether or not the buffer
is empty; if the capture buffer is non-empty it is promoted to "last" and the
controller enters the replay phase; if it is empty the controller returns
directly to listening, never entering the replay phase, and the last buffer is
unchanged. -/
theorem capture_end_transition (v : ℚ) (last : Option (List Nat))
    (swing fid : Nat) (info : Bool) (t : Tick) (env : List Tick)
    (hc : t.cmds = []) (hr : t.ret = true) :
    (main_iter (armedState v last swing info fid) t env).st.swing_count = swing + 1 ∧
    ((capture_loop ⟨true, false, false, false, v⟩ (fid + 1) env).buf = [] →
      (main_iter (armedState v last swing info fid) t env).st.last_buf = last ∧
      Ev.replay_started ∉ (main_iter (armedState v last swing info fid) t env).evs) ∧
    ((capture_loop ⟨true, false, false, false, v⟩ (fid + 1) env).buf ≠ [] →
      (main_iter (armedState v last swing info fid) t env).st.last_buf =
        some (capture_loop ⟨true, false, false, false, v⟩ (fid + 1) env).buf ∧
      Ev.replay_started ∈ (main_iter (armedState v last swing info fid) t env).evs) := by
  by_cases hb : (capture_loop ⟨true, false, false, false, v⟩ (fid + 1) env).buf = []
  · have hevs := capture_loop_evs env (⟨true, false, false, false, v⟩ : Shared) (fid + 1)
    refine ⟨?_, fun _ => ⟨?_, ?_⟩, fun hne => absurd hb hne⟩ <;>
      simp [main_iter, armedState, hc, hr, applyCmds, finish_iter, hb, hevs]
  · refine ⟨?_, fun he => absurd he hb, fun _ => ⟨?_, ?_⟩⟩ <;>
      simp [main_iter, armedState, hc, hr, applyCmds, finish_iter, hb, run_replay]

/-- C3 (witness): a one-tick capture environment yields a one-frame buffer,
which is promoted to "last", with the counter incremented once. -/
theorem capture_end_transition_witness :
    (main_iter (armedState 2 none 0 false 0) ⟨[], true, false, false⟩
      [⟨[], true, false, false⟩]).st.swing_count = 0 + 1 ∧
    (main_iter (armedState 2 none 0 false 0) ⟨[], true, false, false⟩
      [⟨[], true, false, false⟩]).st.last_buf =
      some (capture_loop ⟨true, false, false, false, 2⟩ (0 + 1)
        [⟨[], true, false, false⟩]).buf :=
  ⟨(capture_end_transition 2 none 0 0 false ⟨[], true, false, false⟩
      [⟨[], true, false, false⟩] rfl rfl).1,
    ((capture_end_transition 2 none 0 0 false ⟨[], true, false, false⟩
      [⟨[], true, false, false⟩] rfl rfl).2.2 (by decide)).1⟩

/-! ### Claim C10: asymmetric barge-in between the two replay entry paths -/

/-- C10.  After a capture-triggered replay the controller clears the
START_RECORD latch again (line 315), so whatever START_RECORD interrupted that
replay is consumed — the iteration always ends with the latch down.  After a
REPEAT_REPLAY-triggered replay only the REPEAT_REPLAY latch is cleared
(line 323), so the START_RECORD latch ends exactly as `run_replay` left it; in
particular a START_RECORD barge-in during a repeated replay survives the
iteration and the very next iteration begins a new capture, as the concrete
two-iteration run shows. -/
theorem barge_in_asymmetry :
    (∀ (v : ℚ) (last : Option (List Nat)) (swing : Nat) (info : Bool) (fid : Nat)
        (t : Tick) (env : List Tick), t.cmds = [] → t.ret = true →
      (main_iter (armedState v last swing info fid) t env).st.shared.start_record
        = false) ∧
    (∀ (v : ℚ) (buf : List Nat) (swing : Nat) (info : Bool) (fid : Nat)
        (t : Tick) (env : List Tick), t.cmds = [] → t.ret = true →
      (main_iter (repeatState v buf swing info fid) t env).st.shared.start_record =
        (run_replay ⟨false, true, false, false, v⟩ buf env).sh.start_record ∧
      (main_iter (repeatState v buf swing info fid) t env).st.shared.repeat_replay
        = false) ∧
    (main_iter ⟨⟨false, false, false, false, 2⟩, some [7, 8], 1, false, 5⟩
        ⟨[Cmd.repeat_replay], true, false, false⟩
        [⟨[Cmd.start_record], true, false, false⟩]).st.shared.start_record = true ∧
    Ev.capture_started ∈
      (main_loop ⟨⟨false, false, false, false, 2⟩, some [7, 8], 1, false, 5⟩
        [⟨[Cmd.repeat_replay], true, false, false⟩,
          ⟨[Cmd.start_record], true, false, false⟩] 2).2 := by
  refine ⟨?_, ?_, rfl, ?_⟩
  · intro v last swing info fid t env hc hr
    by_cases hb : (capture_loop ⟨true, false, false, false, v⟩ (fid + 1) env).buf = [] <;>
      simp [main_iter, armedState, hc, hr, applyCmds, finish_iter, hb] <;>
      split <;> rfl
  · intro v buf swing info fid t env hc hr
    constructor <;>
      simp [main_iter, repeatState, hc, hr, applyCmds, finish_iter, run_replay] <;>
      split <;> rfl
  · decide

/-- C10 (witness): the latch-clearing facts at concrete states. -/
theorem barge_in_asymmetry_witness :
    (main_iter (armedState 2 none 0 false 0)
      ⟨[], true, false, false⟩ []).st.shared.start_record = false ∧
    (main_iter (repeatState 2 [7] 0 false 0)
      ⟨[], true, false, false⟩ []).st.shared.repeat_replay = false :=
  ⟨barge_in_asymmetry.1 2 none 0 false 0 ⟨[], true, false, false⟩ [] rfl rfl,
    (barge_in_asymmetry.2.1 2 [7] 0 false 0 ⟨[], true, false, false⟩ [] rfl rfl).2⟩

end Golf
